import Mathlib

/-!
Verification development for the school-management application
(src/gestion-escolar/streamlit_app.py).

The relational store (SQLite tables students, teachers, subjects, classes,
attendance, grades, exams) is embedded shallowly: each table is a Lean list
of records, row ids come from an AUTOINCREMENT counter carried in the store
state, and each page handler of the app becomes a pure function from store
state (plus its form inputs) to store state.  REAL columns become rationals;
the pandas float arithmetic of the two aggregators is modelled with an
explicit value type carrying the IEEE division-by-zero outcomes, and the
numpy rounding used by pandas Series.round is modelled as round-half-to-even.
-/

namespace SchoolApp

/-- A row of the students table:
id INTEGER PRIMARY KEY AUTOINCREMENT, student_code TEXT UNIQUE,
first_name TEXT, last_name TEXT, extra TEXT. -/
structure Student where
  id : Nat
  student_code : String
  first_name : String
  last_name : String
  extra : Option String
deriving DecidableEq, Repr

/-- A row of the teachers table: id, name TEXT UNIQUE, email TEXT. -/
structure Teacher where
  id : Nat
  name : String
  email : String
deriving DecidableEq, Repr

/-- A row of the attendance table: id, class_id, student_id, date TEXT,
present INTEGER DEFAULT 0, note TEXT.  The app only ever stores 0 or 1 in
present; note is never written by any handler, hence Option String. -/
structure AttendanceRecord where
  id : Nat
  class_id : Nat
  student_id : Nat
  date : String
  present : Nat
  note : Option String
deriving DecidableEq, Repr

/-- A row of the grades table: id, class_id, student_id, date TEXT,
grade REAL, weight REAL DEFAULT 1, description TEXT. -/
structure GradeEntry where
  id : Nat
  class_id : Nat
  student_id : Nat
  date : String
  grade : ℚ
  weight : ℚ
  descr : String
deriving DecidableEq, Repr

/-- A row of the exams table: id, file_name TEXT, uploaded_by TEXT,
subject_id INTEGER (nullable), class_id INTEGER (nullable),
upload_date TEXT, original_name TEXT. -/
structure ExamRecord where
  id : Nat
  file_name : String
  uploaded_by : String
  subject_id : Option Nat
  class_id : Option Nat
  upload_date : String
  original_name : String
deriving DecidableEq, Repr

/-- The relational store: the tables the claims touch, together with the
AUTOINCREMENT counters that produce fresh primary keys. -/
structure DB where
  students : List Student
  teachers : List Teacher
  attendance : List AttendanceRecord
  grades : List GradeEntry
  exams : List ExamRecord
  nextStudentId : Nat
  nextTeacherId : Nat
  nextAttendanceId : Nat
  nextExamId : Nat
deriving DecidableEq, Repr

/-- The empty store right after init_db. -/
def DB.empty : DB :=
  { students := [], teachers := [], attendance := [], grades := [], exams := []
    nextStudentId := 1, nextTeacherId := 1, nextAttendanceId := 1, nextExamId := 1 }

/-! ### Rounding

pandas Series.round delegates to numpy, which rounds half to even.
`roundHalfEven` is that rounding on rationals; round1 and round2 are the
one- and two-decimal roundings used for attendance percent and grade
promedio respectively. -/

/-- Round a rational to the nearest integer, ties going to the even
neighbour (numpy rounding). -/
def roundHalfEven (q : ℚ) : ℤ :=
  if q - Int.floor q < 1/2 then Int.floor q
  else if 1/2 < q - Int.floor q then Int.floor q + 1
  else if Int.floor q % 2 = 0 then Int.floor q else Int.floor q + 1

/-- Round to one decimal place, as in (...).round(1). -/
def round1 (q : ℚ) : ℚ := (roundHalfEven (q * 10) : ℚ) / 10

/-- Round to two decimal places, as in (...).round(2). -/
def round2 (q : ℚ) : ℚ := (roundHalfEven (q * 100) : ℚ) / 100

/-! ### Pandas float values

The aggregators divide pandas float columns elementwise.  IEEE float
division never raises: x/0 is +inf for x > 0, -inf for x < 0 and NaN for
x = 0.  PdVal carries exactly these outcomes over exact rationals. -/

/-- The value of one cell of a pandas float column: a finite rational or
one of the IEEE division-by-zero outcomes. -/
inductive PdVal where
  | fin : ℚ → PdVal
  | posInf : PdVal
  | negInf : PdVal
  | nan : PdVal
deriving DecidableEq, Repr

/-- Elementwise pandas float division a / b (IEEE semantics on finite
operands; no exception is ever raised). -/
def pdDiv (a b : ℚ) : PdVal :=
  if b ≠ 0 then .fin (a / b)
  else if 0 < a then .posInf
  else if a < 0 then .negInf
  else .nan

/-- Series.round(2) on one cell: rounds finite values, fixes inf and NaN. -/
def pdRound2 : PdVal → PdVal
  | .fin q => .fin (round2 q)
  | v => v

/-! ### Grade Aggregator (Notas page, avg_q / promedio)

SELECT s.id, s.first_name, s.last_name, SUM(g.grade * g.weight) AS suma,
SUM(g.weight) as pesos FROM grades g JOIN students s ON g.student_id=s.id
WHERE g.class_id=? GROUP BY s.id
followed by promedio = (suma / pesos).round(2). -/

/-- The grade rows of one student in one class (the rows of one GROUP BY
group of avg_q). -/
def gradeRowsFor (db : DB) (cid sid : Nat) : List GradeEntry :=
  db.grades.filter (fun g => decide (g.class_id = cid ∧ g.student_id = sid))

/-- SUM(g.grade * g.weight) for one group. -/
def sumaFor (db : DB) (cid sid : Nat) : ℚ :=
  (gradeRowsFor db cid sid).foldr (fun g acc => g.grade * g.weight + acc) 0

/-- SUM(g.weight) for one group. -/
def pesosFor (db : DB) (cid sid : Nat) : ℚ :=
  (gradeRowsFor db cid sid).foldr (fun g acc => g.weight + acc) 0

/-- promedio for one student: (suma / pesos).round(2) under pandas float
semantics. -/
def promedioFor (db : DB) (cid sid : Nat) : PdVal :=
  pdRound2 (pdDiv (sumaFor db cid sid) (pesosFor db cid sid))

/-- The Grade Aggregator: one (student id, promedio) row per student of the
students table having at least one grade row in the class (the JOIN drops
students without grade rows; GROUP BY s.id makes one row per such
student). -/
def gradeSummary (db : DB) (cid : Nat) : List (Nat × PdVal) :=
  (db.students.filter (fun s => decide (gradeRowsFor db cid s.id ≠ []))).map
    (fun s => (s.id, promedioFor db cid s.id))

/-! ### Attendance Aggregator (Consultar alumnos page)

SELECT a.student_id, s.first_name, s.last_name, SUM(a.present) as presents,
COUNT(a.id) as total FROM attendance a JOIN students s ON a.student_id=s.id
WHERE a.class_id=? GROUP BY a.student_id, s.first_name, s.last_name
followed by percent = (presents / total * 100).round(1). -/

/-- The attendance rows of one student in one class. -/
def attRowsFor (db : DB) (cid sid : Nat) : List AttendanceRecord :=
  db.attendance.filter (fun a => decide (a.class_id = cid ∧ a.student_id = sid))

/-- SUM(a.present) for one group. -/
def presentsFor (db : DB) (cid sid : Nat) : Nat :=
  (attRowsFor db cid sid).foldr (fun a acc => a.present + acc) 0

/-- COUNT(a.id) for one group. -/
def totalFor (db : DB) (cid sid : Nat) : Nat :=
  (attRowsFor db cid sid).length

/-- percent for one student: presents / total * 100 rounded to one
decimal.  total is at least 1 for every emitted row, so plain rational
division is the float value here. -/
def percentFor (db : DB) (cid sid : Nat) : ℚ :=
  round1 ((presentsFor db cid sid : ℚ) / (totalFor db cid sid : ℚ) * 100)

/-- The Attendance Aggregator: one (student id, presents, total, percent)
row per student of the students table having at least one attendance row
in the class. -/
def attendanceSummary (db : DB) (cid : Nat) : List (Nat × Nat × Nat × ℚ) :=
  (db.students.filter (fun s => decide (attRowsFor db cid s.id ≠ []))).map
    (fun s => (s.id, presentsFor db cid s.id, totalFor db cid s.id,
               percentFor db cid s.id))

/-! ### Guardar asistencia (attendance upsert)

For each student the handler runs
SELECT id FROM attendance WHERE class_id=? AND student_id=? AND date=?
(fetchone), then either
UPDATE attendance SET present=? WHERE id=?   when a row was found, or
INSERT INTO attendance(class_id, student_id, date, present) VALUES (...)
otherwise.  Note that the UPDATE sets only present, and the INSERT leaves
note NULL: no save ever carries a note value. -/

/-- The WHERE clause of the upsert: does the row match the
(class, student, date) triple. -/
def attMatch (cid sid : Nat) (date : String) (a : AttendanceRecord) : Bool :=
  decide (a.class_id = cid ∧ a.student_id = sid ∧ a.date = date)

/-- SELECT ... fetchone: the first matching row in rowid (insertion)
order. -/
def findAttendance (db : DB) (cid sid : Nat) (date : String) :
    Option AttendanceRecord :=
  (db.attendance.filter (attMatch cid sid date)).head?

/-- UPDATE attendance SET present=? WHERE id=?: effect on one row. -/
def setPresent (isP : Bool) (tid : Nat) (a : AttendanceRecord) :
    AttendanceRecord :=
  if a.id = tid then { a with present := if isP then 1 else 0 } else a

/-- The per-student body of the Guardar asistencia loop: update the found
row's present, or insert a fresh row with the next AUTOINCREMENT id and a
NULL note. -/
def saveAttendanceOne (db : DB) (cid sid : Nat) (date : String)
    (isP : Bool) : DB :=
  match findAttendance db cid sid date with
  | some found =>
      { db with attendance := db.attendance.map (setPresent isP found.id) }
  | none =>
      { db with
        attendance := db.attendance ++
          [⟨db.nextAttendanceId, cid, sid, date, if isP then 1 else 0, none⟩],
        nextAttendanceId := db.nextAttendanceId + 1 }

/-! ### Importar alumnos (CSV import) -/

/-- One data row of the uploaded CSV, projected to the three required
columns (the insert reads exactly these three). -/
structure CsvRow where
  student_code : String
  first_name : String
  last_name : String
deriving DecidableEq, Repr

/-- required = \x7b'student_code','first_name','last_name'\x7d;
required.issubset(set(df.columns)). -/
def hasRequiredColumns (cols : List String) : Bool :=
  decide ("student_code" ∈ cols ∧ "first_name" ∈ cols ∧ "last_name" ∈ cols)

/-- One iteration of the import loop:
try: INSERT INTO students(student_code, first_name, last_name) VALUES (...)
except Exception: pass.
The only failing case is the UNIQUE constraint on student_code; the
IntegrityError is swallowed, so a duplicate row is a silent no-op. -/
def insertStudentRow (db : DB) (r : CsvRow) : DB :=
  if db.students.any (fun s => decide (s.student_code = r.student_code)) then
    db
  else
    { db with
      students := db.students ++
        [⟨db.nextStudentId, r.student_code, r.first_name, r.last_name, none⟩],
      nextStudentId := db.nextStudentId + 1 }

/-- The outcome reported by the Importar CSV handler. -/
inductive ImportOutcome where
  | missingColumns : ImportOutcome
  | success : ImportOutcome
deriving DecidableEq, Repr

/-- The Importar CSV handler: reject the whole batch when a required
column is absent (st.error, nothing written), otherwise insert the rows
one by one, swallowing per-row failures, and report one aggregate success
message. -/
def importCSV (db : DB) (cols : List String) (rows : List CsvRow) :
    DB × ImportOutcome :=
  if hasRequiredColumns cols then
    (rows.foldl insertStudentRow db, .success)
  else
    (db, .missingColumns)

/-! ### Agregar profesor -/

/-- Python str.strip() on the form inputs: drop leading and trailing
whitespace (kept kernel-computable by working on the character list). -/
def pyStrip (s : String) : String :=
  ⟨((s.data.dropWhile Char.isWhitespace).reverse.dropWhile
      Char.isWhitespace).reverse⟩

/-- The outcome reported by the Agregar profesor form. -/
inductive TeacherAddResult where
  | emptyName : TeacherAddResult
  | added : TeacherAddResult
  | nameExists : TeacherAddResult
deriving DecidableEq, Repr

/-- The Agregar profesor handler: warn on an empty stripped name,
otherwise try INSERT INTO teachers(name, email); the UNIQUE constraint on
name turns a duplicate into sqlite3.IntegrityError, caught and reported as
its own error message, with nothing written. -/
def addTeacher (db : DB) (name email : String) : DB × TeacherAddResult :=
  if pyStrip name = "" then (db, .emptyName)
  else if db.teachers.any (fun t => decide (t.name = pyStrip name)) then
    (db, .nameExists)
  else
    ({ db with
       teachers := db.teachers ++
         [⟨db.nextTeacherId, pyStrip name, pyStrip email⟩],
       nextTeacherId := db.nextTeacherId + 1 },
     .added)

/-- Ajustes / Exportar on the teachers table: SELECT * FROM teachers
serialized row by row (id, name, email). -/
def exportTeachers (db : DB) : List (Nat × String × String) :=
  db.teachers.map (fun t => (t.id, t.name, t.email))

/-! ### Exam Registry

The blob store (EXAMS_DIR) is the list of stored file names; its contents
are irrelevant to the claims, only presence or absence of a name. -/

/-- filepath.unlink(): removes the file, raising when it is absent. -/
def unlinkFile (fs : List String) (name : String) :
    Except Unit (List String) :=
  if name ∈ fs then .ok (fs.erase name) else .error ()

/-- The Eliminar action of Cargar examenes, for the selected row:
try: filepath.unlink() except Exception: pass   (best effort), then
DELETE FROM exams WHERE id=?                    (unconditional), then
st.success.  Returns none only when no exams row carries the selected id,
which the selectbox over existing rows rules out. -/
def deleteExam (db : DB) (fs : List String) (examId : Nat) :
    Option (DB × List String × Bool) :=
  match db.exams.find? (fun e => decide (e.id = examId)) with
  | none => none
  | some row =>
      some ({ db with exams := db.exams.filter (fun e => decide (¬ e.id = examId)) },
            (match unlinkFile fs row.file_name with
             | .ok fs3 => fs3
             | .error _ => fs),
            true)

/-- The Subir examen handler: open(dest, "wb"); f.write(...) persists the
bytes, then the exams row is inserted.  There is no exception handler: a
failing write propagates and the INSERT that follows it is never reached.
writeOk says whether the blob store accepts the write; on success the
stored name is added to the blob store and the metadata row is appended. -/
def uploadExam (db : DB) (fs : List String) (writeOk : Bool)
    (safe_name uploaded_by : String) (subj cls : Option Nat)
    (date orig : String) : Except Unit (DB × List String) :=
  if writeOk then
    .ok ({ db with
           exams := db.exams ++
             [⟨db.nextExamId, safe_name, uploaded_by, subj, cls, date, orig⟩],
           nextExamId := db.nextExamId + 1 },
         fs ++ [safe_name])
  else .error ()

/-! ### Concrete stores used by the worked examples of the claims -/

/-- The single student of the example stores. -/
def exStudent : Student := ⟨1, "A001", "Ana", "Diaz", none⟩

/-- One student, grade entries (80, weight 1) and (90, weight 3) in
class 1. -/
def exGradeDB : DB :=
  { DB.empty with
    students := [exStudent],
    grades := [⟨1, 1, 1, "d1", 80, 1, "p1"⟩, ⟨2, 1, 1, "d2", 90, 3, "p2"⟩],
    nextStudentId := 2 }

/-- One student whose only grade entry is (70, weight 0) in class 1. -/
def zeroWeightDB : DB :=
  { DB.empty with
    students := [exStudent],
    grades := [⟨1, 1, 1, "d1", 70, 0, "p1"⟩],
    nextStudentId := 2 }

/-- One student, four attendance rows in class 1: present three times,
absent once. -/
def exAttDB : DB :=
  { DB.empty with
    students := [exStudent],
    attendance := [⟨1, 1, 1, "d1", 1, none⟩, ⟨2, 1, 1, "d2", 1, none⟩,
                   ⟨3, 1, 1, "d3", 1, none⟩, ⟨4, 1, 1, "d4", 0, none⟩],
    nextAttendanceId := 5 }

/-- Attendance row i of the large store: class 1, student 1, a distinct
date per row, present for the first 1999 of 2000 dates. -/
def bigRow (i : Nat) : AttendanceRecord :=
  ⟨i + 1, 1, 1, toString i, if i < 1999 then 1 else 0, none⟩

/-- The 2000 attendance rows of the large store. -/
def bigAttendance : List AttendanceRecord := (List.range 2000).map bigRow

/-- One student with 2000 attendance rows in class 1: 1999 present, one
absent. -/
def bigAttDB : DB :=
  { DB.empty with
    students := [exStudent],
    attendance := bigAttendance,
    nextAttendanceId := 2001 }

/-! ### Helper lemmas: rounding bounds -/

lemma roundHalfEven_nonneg (q : ℚ) (h : 0 ≤ q) : 0 ≤ roundHalfEven q := by
  have hf : (0 : ℤ) ≤ ⌊q⌋ := Int.floor_nonneg.mpr h
  unfold roundHalfEven
  split
  · exact hf
  · split
    · omega
    · split <;> omega

lemma roundHalfEven_le_ceil (q : ℚ) : roundHalfEven q ≤ ⌈q⌉ := by
  have hfc : ⌊q⌋ ≤ ⌈q⌉ := Int.floor_le_ceil q
  have hlt : 1 / 2 ≤ q - ⌊q⌋ → ⌊q⌋ < ⌈q⌉ := by
    intro hh
    have : (⌊q⌋ : ℚ) < q := by linarith
    exact Int.lt_ceil.mpr this
  unfold roundHalfEven
  split
  · exact hfc
  · next h1 =>
    split
    · next h2 => have := hlt (by linarith); omega
    · next h2 =>
      have := hlt (by linarith)
      split <;> omega

lemma roundHalfEven_intCast (z : ℤ) : roundHalfEven (z : ℚ) = z := by
  unfold roundHalfEven
  rw [Int.floor_intCast]
  rw [if_pos]
  norm_num

lemma round1_nonneg (q : ℚ) (h : 0 ≤ q) : 0 ≤ round1 q := by
  unfold round1
  have h10 : 0 ≤ q * 10 := by linarith
  have := roundHalfEven_nonneg (q * 10) h10
  positivity

lemma round1_le_100 (q : ℚ) (h : q ≤ 100) : round1 q ≤ 100 := by
  unfold round1
  have hc : roundHalfEven (q * 10) ≤ ⌈q * 10⌉ := roundHalfEven_le_ceil _
  have hc2 : ⌈q * 10⌉ ≤ (1000 : ℤ) := by
    apply Int.ceil_le.mpr
    push_cast
    linarith
  have hle : (roundHalfEven (q * 10) : ℚ) ≤ (1000 : ℚ) := by
    exact_mod_cast le_trans hc hc2
  linarith

lemma round1_hundred : round1 100 = 100 := by
  norm_num [round1, roundHalfEven]

/-! ### Helper lemmas: sums over attendance and grade rows -/

lemma sumPresent_le_length (l : List AttendanceRecord)
    (h : ∀ a ∈ l, a.present ≤ 1) :
    l.foldr (fun a acc => a.present + acc) 0 ≤ l.length := by
  induction l with
  | nil => simp
  | cons a t ih =>
    have ha := h a (List.mem_cons_self a t)
    have ht := ih (fun b hb => h b (List.mem_cons_of_mem a hb))
    simp only [List.foldr_cons, List.length_cons]
    omega

lemma pesos_nonneg (l : List GradeEntry) (h : ∀ g ∈ l, 0 ≤ g.weight) :
    0 ≤ l.foldr (fun g acc => g.weight + acc) 0 := by
  induction l with
  | nil => simp
  | cons a t ih =>
    have ha := h a (List.mem_cons_self a t)
    have ht := ih (fun b hb => h b (List.mem_cons_of_mem a hb))
    simp only [List.foldr_cons]
    linarith

lemma suma_eq_zero_of_zero_pesos (l : List GradeEntry)
    (h : ∀ g ∈ l, 0 ≤ g.weight)
    (hz : l.foldr (fun g acc => g.weight + acc) 0 = 0) :
    l.foldr (fun g acc => g.grade * g.weight + acc) 0 = 0 := by
  induction l with
  | nil => simp
  | cons a t ih =>
    have ha := h a (List.mem_cons_self a t)
    have ht : ∀ g ∈ t, 0 ≤ g.weight := fun b hb => h b (List.mem_cons_of_mem a hb)
    have htn := pesos_nonneg t ht
    simp only [List.foldr_cons] at hz ⊢
    have haw : a.weight = 0 := by linarith
    have htz : t.foldr (fun g acc => g.weight + acc) 0 = 0 := by linarith
    rw [haw, ih ht htz]
    ring

/-! ### Helper lemmas: the attendance upsert and the triple filter -/

lemma attMatch_setPresent (cid sid : Nat) (date : String) (isP : Bool)
    (tid : Nat) (a : AttendanceRecord) :
    attMatch cid sid date (setPresent isP tid a) = attMatch cid sid date a := by
  unfold setPresent
  split <;> rfl

lemma filter_map_setPresent (cid sid : Nat) (date : String) (isP : Bool)
    (tid : Nat) (l : List AttendanceRecord) :
    (l.map (setPresent isP tid)).filter (attMatch cid sid date) =
      (l.filter (attMatch cid sid date)).map (setPresent isP tid) := by
  induction l with
  | nil => rfl
  | cons a t ih =>
    simp only [List.map_cons, List.filter_cons, attMatch_setPresent]
    split
    · simp [ih]
    · exact ih

/-! ### Helper lemmas: the import loop -/

/-- Occurrences of one student_code among the stored students. -/
def countCode (db : DB) (code : String) : Nat :=
  db.students.countP (fun s => decide (s.student_code = code))

lemma mem_students_insertStudentRow (db : DB) (r : CsvRow) (s : Student)
    (h : s ∈ db.students) : s ∈ (insertStudentRow db r).students := by
  unfold insertStudentRow
  split
  · exact h
  · exact List.mem_append_left _ h

lemma mem_students_foldl (rows : List CsvRow) (db : DB) (s : Student)
    (h : s ∈ db.students) :
    s ∈ (rows.foldl insertStudentRow db).students := by
  induction rows generalizing db with
  | nil => exact h
  | cons r t ih => exact ih _ (mem_students_insertStudentRow db r s h)

lemma countCode_insertStudentRow (db : DB) (r : CsvRow) (code : String)
    (h : 1 ≤ countCode db code) :
    countCode (insertStudentRow db r) code = countCode db code := by
  unfold insertStudentRow
  split
  · rfl
  · next hna =>
    unfold countCode
    simp only [List.countP_append]
    have hcode : r.student_code ≠ code := by
      intro hc
      obtain ⟨s, hs, hsc⟩ := List.countP_pos_iff.mp (Nat.lt_of_lt_of_le Nat.zero_lt_one h)
      apply hna
      refine List.any_eq_true.mpr ⟨s, hs, ?_⟩
      simp only [decide_eq_true_eq] at hsc ⊢
      rw [hsc, hc]
    simp [hcode]

lemma countCode_foldl (rows : List CsvRow) (db : DB) (code : String)
    (h : 1 ≤ countCode db code) :
    countCode (rows.foldl insertStudentRow db) code = countCode db code := by
  induction rows generalizing db with
  | nil => rfl
  | cons r t ih =>
    have hr := countCode_insertStudentRow db r code h
    calc countCode ((r :: t).foldl insertStudentRow db) code
        = countCode (t.foldl insertStudentRow (insertStudentRow db r)) code := rfl
      _ = countCode (insertStudentRow db r) code := ih _ (by omega)
      _ = countCode db code := hr

/-! ### Helper lemmas: fold over List.range as a Finset sum -/

lemma foldr_add_shift (g : Nat → Nat) (l : List Nat) (init : Nat) :
    l.foldr (fun i acc => g i + acc) init =
      l.foldr (fun i acc => g i + acc) 0 + init := by
  induction l with
  | nil => simp
  | cons a t ih => simp only [List.foldr_cons, ih]; omega

lemma foldr_range_sum (g : Nat → Nat) (n : Nat) :
    (List.range n).foldr (fun i acc => g i + acc) 0 =
      ∑ i ∈ Finset.range n, g i := by
  induction n with
  | zero => simp
  | succ n ih =>
    rw [List.range_succ, List.foldr_append, Finset.sum_range_succ]
    simp only [List.foldr_cons, List.foldr_nil]
    rw [foldr_add_shift, ih]
    omega

/-! ### Helper lemmas: evaluating the aggregator on the 2000-row store -/

lemma bigAttDB_attendance : bigAttDB.attendance = bigAttendance := by
  simp only [bigAttDB]

lemma bigAttDB_rows : attRowsFor bigAttDB 1 1 = (List.range 2000).map bigRow := by
  unfold attRowsFor
  rw [bigAttDB_attendance, bigAttendance]
  apply List.filter_eq_self.mpr
  intro a ha
  obtain ⟨i, _, rfl⟩ := List.mem_map.mp ha
  simp [bigRow]

lemma bigAttDB_total : totalFor bigAttDB 1 1 = 2000 := by
  unfold totalFor
  rw [bigAttDB_rows]
  simp

lemma bigAttDB_presents : presentsFor bigAttDB 1 1 = 1999 := by
  unfold presentsFor
  rw [bigAttDB_rows, List.foldr_map, foldr_range_sum]
  have hsplit : (2000 : Nat) = 1999 + 1 := rfl
  rw [hsplit, Finset.sum_range_succ]
  have hlast : (bigRow 1999).present = 0 := by simp [bigRow]
  have hmost : ∑ i ∈ Finset.range 1999, (bigRow i).present =
      ∑ _i ∈ Finset.range 1999, 1 := by
    apply Finset.sum_congr rfl
    intro i hi
    simp [bigRow, Finset.mem_range.mp hi]
  rw [hlast, hmost]
  simp

lemma bigAttDB_percent : percentFor bigAttDB 1 1 = 100 := by
  unfold percentFor
  rw [bigAttDB_presents, bigAttDB_total]
  norm_num [round1, roundHalfEven]

/-! ### The claims -/

/-- C1: for every class and every student of the store having at least one
GradeEntry in that class (whose weight sum is nonzero, so the weighted
average exists), the Grade Aggregator emits that student's row with
promedio = round2 (sum(grade_i * weight_i) / sum(weight_i)); a student
with zero GradeEntry rows for the class appears in no row; and on the
entries (grade 80, weight 1) and (grade 90, weight 3) the aggregator
returns 87.50. -/
theorem C1_grade_aggregator :
    (∀ (db : DB) (cid : Nat) (s : Student), s ∈ db.students →
       gradeRowsFor db cid s.id ≠ [] → pesosFor db cid s.id ≠ 0 →
       (s.id, PdVal.fin (round2 (sumaFor db cid s.id / pesosFor db cid s.id)))
         ∈ gradeSummary db cid) ∧
    (∀ (db : DB) (cid sid : Nat), gradeRowsFor db cid sid = [] →
       sid ∉ (gradeSummary db cid).map Prod.fst) ∧
    gradeSummary exGradeDB 1 = [(1, PdVal.fin (875/10))] := by
  refine ⟨?_, ?_, ?_⟩
  · intro db cid s hs hne hw
    refine List.mem_map.mpr ⟨s, List.mem_filter.mpr ⟨hs, by simpa using hne⟩, ?_⟩
    simp [promedioFor, pdDiv, hw, pdRound2]
  · intro db cid sid h hmem
    obtain ⟨p, hp, hfst⟩ := List.mem_map.mp hmem
    obtain ⟨s, hsf, rfl⟩ := List.mem_map.mp hp
    have h2 := (List.mem_filter.mp hsf).2
    simp only [decide_eq_true_eq] at h2
    simp only [Prod.fst] at hfst
    rw [← hfst] at h
    exact h2 h
  · norm_num [gradeSummary, promedioFor, pdDiv, pdRound2, sumaFor, pesosFor,
              gradeRowsFor, round2, roundHalfEven, exGradeDB, DB.empty, exStudent]

/-- Witness for C1 on the concrete example store. -/
theorem C1_grade_aggregator_witness :
    (exStudent.id,
     PdVal.fin (round2 (sumaFor exGradeDB 1 exStudent.id /
                        pesosFor exGradeDB 1 exStudent.id)))
      ∈ gradeSummary exGradeDB 1 :=
  C1_grade_aggregator.1 exGradeDB 1 exStudent
    (by simp [exGradeDB])
    (by simp [gradeRowsFor, exGradeDB, DB.empty, exStudent])
    (by norm_num [pesosFor, gradeRowsFor, exGradeDB, DB.empty, exStudent])

/-- C2: a student whose grade rows have weight sum zero (all the app's
weights are nonnegative, hence every such row has weight exactly 0) gets
promedio NaN: the pandas float pipeline computes 0.0/0.0 = NaN instead of
raising, and NaN is pandas' undefined/no-data marker, distinct from every
finite numeric value; in particular the single entry (grade 70, weight 0)
yields NaN, not an error and not 70.0. -/
theorem C2_zero_weight_undefined :
    (∀ (db : DB) (cid sid : Nat),
       (∀ g ∈ gradeRowsFor db cid sid, 0 ≤ g.weight) →
       pesosFor db cid sid = 0 →
       promedioFor db cid sid = PdVal.nan ∧ ∀ q : ℚ, PdVal.nan ≠ PdVal.fin q) ∧
    gradeSummary zeroWeightDB 1 = [(1, PdVal.nan)] := by
  constructor
  · intro db cid sid hw hz
    have hsuma : sumaFor db cid sid = 0 :=
      suma_eq_zero_of_zero_pesos (gradeRowsFor db cid sid) hw hz
    constructor
    · simp [promedioFor, pdDiv, hsuma, hz, pdRound2]
    · intro q h
      cases h
  · norm_num [gradeSummary, promedioFor, pdDiv, pdRound2, sumaFor, pesosFor,
              gradeRowsFor, zeroWeightDB, DB.empty, exStudent]

/-- Witness for C2 on the concrete (70, weight 0) store. -/
theorem C2_zero_weight_undefined_witness :
    promedioFor zeroWeightDB 1 1 = PdVal.nan ∧
      ∀ q : ℚ, PdVal.nan ≠ PdVal.fin q :=
  C2_zero_weight_undefined.1 zeroWeightDB 1 1
    (by
      intro g hg
      simp only [gradeRowsFor, zeroWeightDB, DB.empty] at hg
      simp at hg
      simp [hg])
    (by norm_num [pesosFor, gradeRowsFor, zeroWeightDB, DB.empty])

/-- C3: in a store holding at most one attendance row for a
(class, student, date) triple — the invariant the upsert maintains —
saving attendance twice for that triple leaves exactly one matching row:
its present field carries the value of the latest save and its note field
carries the note the triple had before the saves (none when the row is
freshly inserted; the handler carries no note input, the INSERT leaves
note NULL and the UPDATE does not touch it). -/
theorem C3_attendance_upsert :
    ∀ (db : DB) (cid sid : Nat) (date : String) (p1 p2 : Bool),
    (db.attendance.filter (attMatch cid sid date)).length ≤ 1 →
    ((saveAttendanceOne (saveAttendanceOne db cid sid date p1)
        cid sid date p2).attendance.filter (attMatch cid sid date)).map
      (fun a => (a.present, a.note)) =
      [((if p2 then 1 else 0 : Nat),
        (findAttendance db cid sid date).bind (fun a => a.note))] := by
  intro db cid sid date p1 p2 hU
  cases hf : db.attendance.filter (attMatch cid sid date) with
  | nil =>
    have hfind : findAttendance db cid sid date = none := by
      unfold findAttendance
      rw [hf]
      rfl
    have hdb1 : (saveAttendanceOne db cid sid date p1).attendance =
        db.attendance ++
          [⟨db.nextAttendanceId, cid, sid, date, if p1 then 1 else 0, none⟩] := by
      rw [saveAttendanceOne, hfind]
    have hfilter1 : ((saveAttendanceOne db cid sid date p1).attendance.filter
        (attMatch cid sid date)) =
        [⟨db.nextAttendanceId, cid, sid, date, if p1 then 1 else 0, none⟩] := by
      rw [hdb1, List.filter_append, hf]
      simp [attMatch]
    have hfind1 : findAttendance (saveAttendanceOne db cid sid date p1)
        cid sid date =
        some ⟨db.nextAttendanceId, cid, sid, date, if p1 then 1 else 0, none⟩ := by
      unfold findAttendance
      rw [hfilter1]
      rfl
    have h2 : (saveAttendanceOne (saveAttendanceOne db cid sid date p1)
        cid sid date p2).attendance =
        (saveAttendanceOne db cid sid date p1).attendance.map
          (setPresent p2 db.nextAttendanceId) := by
      conv_lhs => rw [saveAttendanceOne]
      rw [hfind1]
    rw [h2, filter_map_setPresent, hfilter1, hfind]
    simp [setPresent]
  | cons found t =>
    have ht : t = [] := by
      rw [hf] at hU
      simp only [List.length_cons] at hU
      have : t.length = 0 := by omega
      exact List.length_eq_zero.mp this
    subst ht
    have hfind : findAttendance db cid sid date = some found := by
      unfold findAttendance
      rw [hf]
      rfl
    have hdb1 : (saveAttendanceOne db cid sid date p1).attendance =
        db.attendance.map (setPresent p1 found.id) := by
      rw [saveAttendanceOne, hfind]
    have hfilter1 : ((saveAttendanceOne db cid sid date p1).attendance.filter
        (attMatch cid sid date)) = [setPresent p1 found.id found] := by
      rw [hdb1, filter_map_setPresent, hf]
      rfl
    have hupd1 : setPresent p1 found.id found =
        { found with present := if p1 then 1 else 0 } := by
      simp [setPresent]
    have hfind1 : findAttendance (saveAttendanceOne db cid sid date p1)
        cid sid date = some { found with present := if p1 then 1 else 0 } := by
      unfold findAttendance
      rw [hfilter1, hupd1]
      rfl
    have h2 : (saveAttendanceOne (saveAttendanceOne db cid sid date p1)
        cid sid date p2).attendance =
        (saveAttendanceOne db cid sid date p1).attendance.map
          (setPresent p2 found.id) := by
      conv_lhs => rw [saveAttendanceOne]
      rw [hfind1]
    rw [h2, filter_map_setPresent, hfilter1, hupd1, hfind]
    simp [setPresent]

/-- Witness for C3: two saves on the empty store. -/
theorem C3_attendance_upsert_witness :
    ((saveAttendanceOne (saveAttendanceOne DB.empty 1 1 "2024-01-01" true)
        1 1 "2024-01-01" false).attendance.filter (attMatch 1 1 "2024-01-01")).map
      (fun a => (a.present, a.note)) = [((0 : Nat), (none : Option String))] := by
  have h := C3_attendance_upsert DB.empty 1 1 "2024-01-01" true false
    (by simp [DB.empty])
  simpa [findAttendance, DB.empty] using h

/-- C4: for every class and every student of the store having at least one
AttendanceRecord in that class, the Attendance Aggregator emits that
student's row with the count of present records, the total record count
and presents/total*100 rounded to one decimal; a student with zero
attendance rows for the class appears in no row; and on three present and
one absent records it returns presents 3, total 4, percent 75.0. -/
theorem C4_attendance_aggregator :
    (∀ (db : DB) (cid : Nat) (s : Student), s ∈ db.students →
       attRowsFor db cid s.id ≠ [] →
       (s.id, presentsFor db cid s.id, totalFor db cid s.id,
        round1 ((presentsFor db cid s.id : ℚ) / (totalFor db cid s.id : ℚ) * 100))
         ∈ attendanceSummary db cid) ∧
    (∀ (db : DB) (cid sid : Nat), attRowsFor db cid sid = [] →
       sid ∉ (attendanceSummary db cid).map Prod.fst) ∧
    attendanceSummary exAttDB 1 = [(1, 3, 4, 75)] := by
  refine ⟨?_, ?_, ?_⟩
  · intro db cid s hs hne
    refine List.mem_map.mpr ⟨s, List.mem_filter.mpr ⟨hs, by simpa using hne⟩, ?_⟩
    simp [percentFor]
  · intro db cid sid h hmem
    obtain ⟨p, hp, hfst⟩ := List.mem_map.mp hmem
    obtain ⟨s, hsf, rfl⟩ := List.mem_map.mp hp
    have h2 := (List.mem_filter.mp hsf).2
    simp only [decide_eq_true_eq] at h2
    simp only [Prod.fst] at hfst
    rw [← hfst] at h
    exact h2 h
  · norm_num [attendanceSummary, percentFor, presentsFor, totalFor, attRowsFor,
              round1, roundHalfEven, exAttDB, DB.empty, exStudent]

/-- Witness for C4 on the concrete example store. -/
theorem C4_attendance_aggregator_witness :
    (exStudent.id, presentsFor exAttDB 1 exStudent.id,
     totalFor exAttDB 1 exStudent.id,
     round1 ((presentsFor exAttDB 1 exStudent.id : ℚ) /
             (totalFor exAttDB 1 exStudent.id : ℚ) * 100))
      ∈ attendanceSummary exAttDB 1 :=
  C4_attendance_aggregator.1 exAttDB 1 exStudent
    (by simp [exAttDB])
    (by simp [attRowsFor, exAttDB, DB.empty, exStudent])

/-- C10 (amended): in a store whose present flags are the 0/1 values the
app writes, every Attendance Aggregator row satisfies
presents ≤ total, 1 ≤ total, 0 ≤ percent ≤ 100, and percent = 100
whenever every record of the student is present.  The converse of the
last part is dropped: rounding to one decimal can push 99.95 up to 100.0,
so percent = 100 does not force presents = total. -/
theorem C10_attendance_bounds :
    ∀ (db : DB) (cid : Nat),
    (∀ a ∈ db.attendance, a.present ≤ 1) →
    ∀ (sid p t : Nat) (pc : ℚ), (sid, p, t, pc) ∈ attendanceSummary db cid →
      p ≤ t ∧ 1 ≤ t ∧ 0 ≤ pc ∧ pc ≤ 100 ∧ (p = t → pc = 100) := by
  intro db cid hpres sid p t pc hmem
  obtain ⟨s, hsf, heq⟩ := List.mem_map.mp hmem
  obtain ⟨hsmem, hcond⟩ := List.mem_filter.mp hsf
  simp only [decide_eq_true_eq] at hcond
  obtain ⟨h1, h2, h3, h4⟩ :
      s.id = sid ∧ presentsFor db cid s.id = p ∧ totalFor db cid s.id = t ∧
        percentFor db cid s.id = pc := by
    simpa [Prod.ext_iff] using heq
  subst h2
  subst h3
  subst h4
  have hple : presentsFor db cid s.id ≤ totalFor db cid s.id := by
    unfold presentsFor totalFor
    apply sumPresent_le_length
    intro a ha
    unfold attRowsFor at ha
    exact hpres a (List.mem_filter.mp ha).1
  have htpos : 1 ≤ totalFor db cid s.id := by
    unfold totalFor
    exact List.length_pos.mpr hcond
  have ht0 : (0 : ℚ) < (totalFor db cid s.id : ℚ) := by
    exact_mod_cast Nat.lt_of_lt_of_le Nat.zero_lt_one htpos
  have hx0 : 0 ≤ (presentsFor db cid s.id : ℚ) / (totalFor db cid s.id : ℚ) * 100 := by
    positivity
  have hx100 :
      (presentsFor db cid s.id : ℚ) / (totalFor db cid s.id : ℚ) * 100 ≤ 100 := by
    have hpq : (presentsFor db cid s.id : ℚ) ≤ (totalFor db cid s.id : ℚ) := by
      exact_mod_cast hple
    have hdiv : (presentsFor db cid s.id : ℚ) / (totalFor db cid s.id : ℚ) ≤ 1 :=
      (div_le_one ht0).mpr hpq
    nlinarith
  refine ⟨hple, htpos, ?_, ?_, ?_⟩
  · exact round1_nonneg _ hx0
  · exact round1_le_100 _ hx100
  · intro hpt
    unfold percentFor
    rw [hpt, div_self (ne_of_gt ht0), one_mul]
    exact round1_hundred

/-- Counterexample to C10 as stated: the 2000-row store has 0/1 present
flags, its single aggregator row reports percent 100.0, yet the student
is present only 1999 of 2000 times (99.95 rounds up to 100.0), so
percent = 100 does not hold exactly when all records are present. -/
theorem C10_counterexample :
    (∀ a ∈ bigAttDB.attendance, a.present ≤ 1) ∧
    attendanceSummary bigAttDB 1 = [(1, 1999, 2000, 100)] ∧
    (1999 : Nat) ≠ 2000 := by
  refine ⟨?_, ?_, by decide⟩
  · intro a ha
    rw [bigAttDB_attendance, bigAttendance] at ha
    obtain ⟨i, _, rfl⟩ := List.mem_map.mp ha
    unfold bigRow
    dsimp only
    split <;> omega
  · have hne : attRowsFor bigAttDB 1 exStudent.id ≠ [] := by
      show attRowsFor bigAttDB 1 1 ≠ []
      rw [bigAttDB_rows]
      simp
    have hstud : bigAttDB.students = [exStudent] := by simp only [bigAttDB]
    rw [attendanceSummary, hstud]
    rw [List.filter_cons]
    simp only [decide_eq_true_eq]
    rw [if_pos hne]
    rw [List.filter_nil, List.map_cons, List.map_nil]
    have hid : exStudent.id = 1 := rfl
    rw [hid]
    have hp : presentsFor bigAttDB 1 exStudent.id = 1999 := bigAttDB_presents
    have htt : totalFor bigAttDB 1 exStudent.id = 2000 := bigAttDB_total
    have hpc : percentFor bigAttDB 1 exStudent.id = 100 := bigAttDB_percent
    rw [hid] at hp htt hpc
    rw [hp, htt, hpc]

/-- Witness for C10's amended theorem on the small example store. -/
theorem C10_attendance_bounds_witness :
    (3 : Nat) ≤ 4 ∧ (1 : Nat) ≤ 4 ∧ (0 : ℚ) ≤ 75 ∧ (75 : ℚ) ≤ 100 ∧
      ((3 : Nat) = 4 → (75 : ℚ) = 100) :=
  C10_attendance_bounds exAttDB 1
    (by
      intro a ha
      simp only [exAttDB, DB.empty] at ha
      simp at ha
      rcases ha with h | h | h | h <;> simp [h])
    1 3 4 75
    (by
      have : attendanceSummary exAttDB 1 = [(1, 3, 4, 75)] := by
        norm_num [attendanceSummary, percentFor, presentsFor, totalFor,
                  attRowsFor, round1, roundHalfEven, exAttDB, DB.empty, exStudent]
      rw [this]
      simp)

/-- C5: an import whose column set misses any of student_code,
first_name, last_name is rejected whole with the missing-columns error
and the store is returned unchanged. -/
theorem C5_import_missing_columns :
    ∀ (db : DB) (cols : List String) (rows : List CsvRow),
    ¬ ("student_code" ∈ cols ∧ "first_name" ∈ cols ∧ "last_name" ∈ cols) →
    importCSV db cols rows = (db, ImportOutcome.missingColumns) := by
  intro db cols rows h
  have hb : hasRequiredColumns cols = false := by
    unfold hasRequiredColumns
    simpa using h
  unfold importCSV
  rw [hb]
  simp

/-- Witness for C5: a CSV with no last_name column writes nothing. -/
theorem C5_import_missing_columns_witness :
    importCSV DB.empty ["student_code", "first_name"] [⟨"A001", "Juan", "P"⟩] =
      (DB.empty, ImportOutcome.missingColumns) :=
  C5_import_missing_columns DB.empty ["student_code", "first_name"]
    [⟨"A001", "Juan", "P"⟩] (by decide)

/-- C6: with the required columns present the import always reports the
aggregate success outcome; a row whose student_code already exists is a
silent no-op, so a code stored once is still stored exactly once after
the batch; and a row that fails neither aborts nor rolls back the rows
inserted before it (everything inserted while processing the earlier rows
of the batch is still present after the whole batch ran). -/
theorem C6_import_duplicate_skip :
    (∀ (db : DB) (cols : List String) (rows : List CsvRow),
       ("student_code" ∈ cols ∧ "first_name" ∈ cols ∧ "last_name" ∈ cols) →
       (importCSV db cols rows).2 = ImportOutcome.success ∧
       ∀ code : String, countCode db code = 1 →
         countCode (importCSV db cols rows).1 code = 1) ∧
    (∀ (db : DB) (r : CsvRow),
       (∃ s ∈ db.students, s.student_code = r.student_code) →
       insertStudentRow db r = db) ∧
    (∀ (db : DB) (rows1 rows2 : List CsvRow) (r : CsvRow) (s : Student),
       s ∈ (rows1.foldl insertStudentRow db).students →
       s ∈ ((rows1 ++ r :: rows2).foldl insertStudentRow db).students) := by
  refine ⟨?_, ?_, ?_⟩
  · intro db cols rows h
    have hb : hasRequiredColumns cols = true := by
      unfold hasRequiredColumns
      simpa using h
    have himp : importCSV db cols rows =
        (rows.foldl insertStudentRow db, ImportOutcome.success) := by
      unfold importCSV
      rw [hb]
      simp
    constructor
    · rw [himp]
    · intro code hc
      rw [himp]
      show countCode (rows.foldl insertStudentRow db) code = 1
      rw [countCode_foldl rows db code (by omega)]
      exact hc
  · intro db r hex
    obtain ⟨s, hs, hsc⟩ := hex
    unfold insertStudentRow
    rw [if_pos]
    exact List.any_eq_true.mpr ⟨s, hs, by simpa using hsc⟩
  · intro db rows1 rows2 r s hs
    rw [List.foldl_append]
    exact mem_students_foldl rows2 _ s
      (mem_students_insertStudentRow _ r s hs)

/-- The store already holding student_code A001, used by the C6
witness. -/
def dupDB : DB := { DB.empty with students := [exStudent], nextStudentId := 2 }

/-- Witness for C6: importing a batch whose row duplicates A001 succeeds
and leaves exactly one A001 row. -/
theorem C6_import_duplicate_skip_witness :
    (importCSV dupDB ["student_code", "first_name", "last_name"]
       [⟨"A001", "X", "Y"⟩]).2 = ImportOutcome.success ∧
    countCode (importCSV dupDB ["student_code", "first_name", "last_name"]
       [⟨"A001", "X", "Y"⟩]).1 "A001" = 1 := by
  have h := C6_import_duplicate_skip.1 dupDB
    ["student_code", "first_name", "last_name"] [⟨"A001", "X", "Y"⟩]
    (by decide)
  exact ⟨h.1, h.2 "A001" (by decide)⟩

/-- C7: creating a teacher whose stripped name already exists among the
stored teachers reports the duplicate-name error — an outcome distinct
from the success and empty-name outcomes — and leaves the store
untouched; in the concrete scenario, adding ("A. Lopez", "a\x40x.edu") and
then attempting a second add with the same name leaves the teacher export
with exactly one "A. Lopez" row and the second add reporting the
duplicate. -/
theorem C7_teacher_uniqueness :
    (∀ (db : DB) (name email : String), pyStrip name ≠ "" →
       (∃ t ∈ db.teachers, t.name = pyStrip name) →
       addTeacher db name email = (db, TeacherAddResult.nameExists)) ∧
    TeacherAddResult.nameExists ≠ TeacherAddResult.added ∧
    TeacherAddResult.nameExists ≠ TeacherAddResult.emptyName ∧
    ((addTeacher DB.empty "A. Lopez" "a@x.edu").2 = TeacherAddResult.added ∧
     (addTeacher (addTeacher DB.empty "A. Lopez" "a@x.edu").1
        "A. Lopez" "b@x.edu").2 = TeacherAddResult.nameExists ∧
     (addTeacher (addTeacher DB.empty "A. Lopez" "a@x.edu").1
        "A. Lopez" "b@x.edu").1 = (addTeacher DB.empty "A. Lopez" "a@x.edu").1 ∧
     (exportTeachers (addTeacher (addTeacher DB.empty "A. Lopez" "a@x.edu").1
        "A. Lopez" "b@x.edu").1).countP
       (fun row => decide (row.2.1 = "A. Lopez")) = 1) := by
  refine ⟨?_, by decide, by decide, by decide⟩
  intro db name email h1 hex
  obtain ⟨t, ht, htn⟩ := hex
  unfold addTeacher
  rw [if_neg h1, if_pos]
  exact List.any_eq_true.mpr ⟨t, ht, by simpa using htn⟩

/-- Witness for C7: the duplicate add on the store that already holds
A. Lopez. -/
theorem C7_teacher_uniqueness_witness :
    addTeacher (addTeacher DB.empty "A. Lopez" "a@x.edu").1
      "A. Lopez" "c@x.edu" =
      ((addTeacher DB.empty "A. Lopez" "a@x.edu").1,
       TeacherAddResult.nameExists) :=
  C7_teacher_uniqueness.1 (addTeacher DB.empty "A. Lopez" "a@x.edu").1
    "A. Lopez" "c@x.edu" (by decide) (by decide)

/-- C8: deleting a selected exam row removes the artifact best-effort
(erased when present, the failure swallowed when absent) and always
removes the metadata row and reports success; in particular a missing
artifact still ends with the metadata row gone, the blob store untouched
and the outcome successful. -/
theorem C8_delete_exam :
    ∀ (db : DB) (fs : List String) (examId : Nat) (row : ExamRecord),
    db.exams.find? (fun e => decide (e.id = examId)) = some row →
    deleteExam db fs examId =
      some ({ db with exams := db.exams.filter (fun e => decide (¬ e.id = examId)) },
            (if row.file_name ∈ fs then fs.erase row.file_name else fs),
            true) ∧
    (row.file_name ∉ fs →
       deleteExam db fs examId =
         some ({ db with exams := db.exams.filter (fun e => decide (¬ e.id = examId)) },
               fs, true)) := by
  intro db fs examId row hfind
  have h1 : deleteExam db fs examId =
      some ({ db with exams := db.exams.filter (fun e => decide (¬ e.id = examId)) },
            (if row.file_name ∈ fs then fs.erase row.file_name else fs),
            true) := by
    unfold deleteExam
    rw [hfind]
    dsimp only
    by_cases hmem : row.file_name ∈ fs
    · unfold unlinkFile
      rw [if_pos hmem, if_pos hmem]
    · unfold unlinkFile
      rw [if_neg hmem, if_neg hmem]
  refine ⟨h1, fun hnot => ?_⟩
  rw [h1, if_neg hnot]

/-- The exam row and store used by the C8 witness. -/
def exExamRow : ExamRecord := ⟨1, "exam_x.pdf", "Prof", none, none, "2024", "x.pdf"⟩

/-- A store holding one exam row whose artifact is missing from the blob
store. -/
def exExamDB : DB := { DB.empty with exams := [exExamRow], nextExamId := 2 }

/-- Witness for C8: deleting the exam whose artifact is absent still
removes the metadata row and succeeds. -/
theorem C8_delete_exam_witness :
    deleteExam exExamDB [] 1 =
      some ({ exExamDB with
              exams := exExamDB.exams.filter (fun e => decide (¬ e.id = 1)) },
            [], true) :=
  (C8_delete_exam exExamDB [] 1 exExamRow (by decide)).2 (by simp)

/-- C9: the Subir examen handler persists the artifact bytes first and
only then inserts the ExamRecord row: a failing write propagates as the
error outcome (so no metadata row is produced), and every successful
outcome contains both the stored artifact name in the blob store and the
appended metadata row. -/
theorem C9_upload_exam :
    ∀ (db : DB) (fs : List String) (writeOk : Bool)
      (safe_name uploaded_by : String) (subj cls : Option Nat)
      (date orig : String),
    (writeOk = false →
       uploadExam db fs writeOk safe_name uploaded_by subj cls date orig =
         Except.error ()) ∧
    (∀ (db2 : DB) (fs2 : List String),
       uploadExam db fs writeOk safe_name uploaded_by subj cls date orig =
         Except.ok (db2, fs2) →
       safe_name ∈ fs2 ∧
       db2.exams = db.exams ++
         [⟨db.nextExamId, safe_name, uploaded_by, subj, cls, date, orig⟩]) := by
  intro db fs writeOk sn ub subj cls date orig
  constructor
  · intro h
    subst h
    rfl
  · intro db2 fs2 h
    cases writeOk with
    | false => simp [uploadExam] at h
    | true =>
      simp only [uploadExam, if_true] at h
      obtain ⟨h1, h2⟩ := by simpa [Prod.ext_iff] using h
      constructor
      · rw [← h2]
        simp
      · rw [← h1]

/-- Witness for C9: a failing write on the empty store propagates, and a
succeeding write stores the blob and appends the row. -/
theorem C9_upload_exam_witness :
    uploadExam DB.empty [] false "e" "P" none none "d" "o" =
        Except.error () ∧
    ("e" ∈ (["e"] : List String) ∧
     ({ DB.empty with
        exams := [⟨DB.empty.nextExamId, "e", "P", none, none, "d", "o"⟩],
        nextExamId := DB.empty.nextExamId + 1 } : DB).exams =
       DB.empty.exams ++
         [⟨DB.empty.nextExamId, "e", "P", none, none, "d", "o"⟩]) :=
  ⟨(C9_upload_exam DB.empty [] false "e" "P" none none "d" "o").1 rfl,
   (C9_upload_exam DB.empty [] true "e" "P" none none "d" "o").2
     { DB.empty with
       exams := [⟨DB.empty.nextExamId, "e", "P", none, none, "d", "o"⟩],
       nextExamId := DB.empty.nextExamId + 1 }
     ["e"] rfl⟩

end SchoolApp
